import Mathlib

/-
Verification of the mcp-vm-server repository, a thin adapter exposing a
cloud provider VM REST API as MCP tools/resources.

The repository has two variants:
  * main.py   — synchronous, using the requests library; every operation
                wraps the HTTP call in try/except and rewrites a
                requests.RequestException that carries a response into
                the uniform error envelope dict with keys error and
                status_code.  On a transport error the handler itself
                crashes: see the syncCall comment below.
  * server.py — asynchronous, using httpx; operations call
                raise_for_status with no handler, so failures propagate
                to the caller as exceptions.

Shallow embedding conventions:
  * JSON values are the inductive Json below; Python dicts become
    association lists in insertion order (Python dicts preserve it).
  * The network is a function from the outbound request to an HttpResult:
    either a response (status plus optional JSON body) or a transport
    error carrying the exception message (no response attached).
  * An operation result is Except PyExc Json: Except.ok is a value
    returned to the caller, Except.error is an unhandled Python
    exception escaping the operation.
  * requests raise_for_status raises for statuses in [400, 600); httpx
    raise_for_status raises when the status is not a 2xx success.  The
    3xx difference between httpx versions never matters below: no
    theorem touches a 3xx status.
  * Python truthiness tests on optional strings (if x:) are modelled by
    matching the Option and testing emptiness.
-/

/-- JSON values, mirroring what the Python json layer produces. -/
inductive Json where
  | str : String → Json
  | num : Int → Json
  | bool : Bool → Json
  | null : Json
  | arr : List Json → Json
  | obj : List (String × Json) → Json

/-- Query parameter values as the Python HTTP clients serialize them:
integers, strings, booleans, and lists of strings (the expand field). -/
inductive ParamVal where
  | int : Int → ParamVal
  | str : String → ParamVal
  | bool : Bool → ParamVal
  | list : List String → ParamVal
deriving DecidableEq

/-- HTTP methods used by the repository. -/
inductive Method where
  | GET
  | POST
  | DELETE
deriving DecidableEq

/-- An outbound HTTP request as assembled by an operation: method, full
url, query parameters, headers, and optional JSON body. -/
structure HttpRequest where
  method : Method
  url : String
  params : List (String × ParamVal)
  headers : List (String × String)
  body : Option Json

/-- An upstream HTTP response: status code and optional JSON body (none
models an empty or non-JSON body, e.g. the HTTP 204 case). -/
structure HttpResponse where
  status : Nat
  body : Option Json

/-- Outcome of one HTTP round trip: a response, or a transport-level
error (connection failure) carrying only an exception message and no
response object. -/
inductive HttpResult where
  | response : HttpResponse → HttpResult
  | transportError : String → HttpResult

/-- A Python exception escaping an operation unhandled.  The
attributeError case is the AttributeError raised by the main.py
except-branch itself when it evaluates e.response.status_code with
e.response = None (the transport-error case). -/
inductive PyExc where
  | httpStatusError : Nat → PyExc
  | transportExc : String → PyExc
  | jsonDecodeError : PyExc
  | attributeError : PyExc
deriving DecidableEq

/-- Result of invoking one operation: Except.ok is a dict returned to
the caller, Except.error an unhandled exception. -/
abbrev OpResult := Except PyExc Json

/-- Association-list lookup by string key, first match wins, mirroring
Python dict key access over insertion-ordered entries. -/
def alookup {β : Type} : List (String × β) → String → Option β
  | [], _ => none
  | p :: rest, key => if p.1 = key then some p.2 else alookup rest key

/-- Field lookup on a JSON object. -/
def Json.lookup : Json → String → Option Json
  | Json.obj fields, key => alookup fields key
  | _, _ => none

/-- The uniform error envelope built by every main.py except-branch:
a dict with exactly the two keys error and status_code. -/
def errorEnvelope (msg : String) (code : Nat) : Json :=
  Json.obj [(("error" : String), Json.str msg),
            (("status_code" : String), Json.num (Int.ofNat code))]

/-- Model of str(e) for the HTTPError that requests raise_for_status
raises on a 4xx/5xx response: requests formats a non-empty message from
the status code and the request url. -/
def httpErrorMsg (status : Nat) (url : String) : String :=
  "HTTPError: " ++ toString status ++ " for url: " ++ url

/-- response.json(): decodes the body, raising a JSON decode error when
the body is empty or not JSON. -/
def requestsJson : Option Json → OpResult
  | some j => Except.ok j
  | none => Except.error PyExc.jsonDecodeError

/-- The try/except pattern shared verbatim by the main.py operations:
issue the request, raise_for_status, return response.json(); a
requests.RequestException is caught and the except-branch builds the
envelope status as e.response.status_code if hasattr(e, 'response')
else 500.  Since RequestException always sets the response attribute,
hasattr is always true: when raise_for_status raised, e.response is
the upstream response and the envelope carries its status; on a
transport error e.response is None, so the handler itself evaluates
None.status_code and raises an AttributeError that escapes the
operation unhandled — the 500 fallback is dead code. -/
def syncCall (req : HttpRequest) (upstream : HttpRequest → HttpResult) : OpResult :=
  match upstream req with
  | HttpResult.transportError _ => Except.error PyExc.attributeError
  | HttpResult.response r =>
    if 400 ≤ r.status ∧ r.status < 600 then
      Except.ok (errorEnvelope (httpErrorMsg r.status req.url) r.status)
    else
      requestsJson r.body

/-- The server.py pattern: issue the request, raise_for_status, return
resp.json(); there is no handler, so both transport errors and
HTTPStatusError propagate unhandled (httpx raises when the status is
not a 2xx success). -/
def asyncCall (req : HttpRequest) (upstream : HttpRequest → HttpResult) : OpResult :=
  match upstream req with
  | HttpResult.transportError msg => Except.error (PyExc.transportExc msg)
  | HttpResult.response r =>
    if 200 ≤ r.status ∧ r.status < 300 then
      requestsJson r.body
    else
      Except.error (PyExc.httpStatusError r.status)

/-- The server.py action pattern (delete/start/stop/reboot/suspend): a
204 response short-circuits to a fixed acknowledgment dict before
raise_for_status and before any body decoding. -/
def asyncCallAck (ack : Json) (req : HttpRequest) (upstream : HttpRequest → HttpResult) : OpResult :=
  match upstream req with
  | HttpResult.transportError msg => Except.error (PyExc.transportExc msg)
  | HttpResult.response r =>
    if r.status = 204 then
      Except.ok ack
    else if 200 ≤ r.status ∧ r.status < 300 then
      requestsJson r.body
    else
      Except.error (PyExc.httpStatusError r.status)

/-- Python-style optional string field for the create_vm payload: the
key is added only when the argument is truthy (present and non-empty),
mirroring the statements of the form if x: payload[key] = x. -/
def optField (key : String) (o : Option String) : List (String × Json) :=
  match o with
  | none => []
  | some s => if s = "" then [] else [(key, Json.str s)]

/-- The network object of create_vm, attached only when vpc_id is
truthy: a vpc reference by id plus associate_public_ip true. -/
def networkField : Option String → List (String × Json)
  | none => []
  | some v =>
    if v = "" then []
    else [(("network" : String),
           Json.obj [(("vpc" : String), Json.obj [(("id" : String), Json.str v)]),
                     (("associate_public_ip" : String), Json.bool true)])]

namespace Main

/-- Headers sent by every main.py operation: the mandatory API key from
process-wide configuration plus the JSON content type. -/
def headersFor (api_key : String) : List (String × String) :=
  [(("x-api-key" : String), api_key),
   (("Content-Type" : String), ("application/json" : String))]

/-- Request built by main.py list_machine_types. -/
def list_machine_typesRequest (base api_key : String) : HttpRequest :=
  { method := Method.GET
    url := base ++ "/v1/machine-types"
    params := [(("_offset" : String), ParamVal.int 0),
               (("_sort" : String), ParamVal.str ("created_at:asc" : String)),
               (("_limit" : String), ParamVal.int 100)]
    headers := headersFor api_key
    body := none }

/-- main.py list_machine_types. -/
def list_machine_types (upstream : HttpRequest → HttpResult) (base api_key : String) : OpResult :=
  syncCall (list_machine_typesRequest base api_key) upstream

/-- Request built by main.py list_images. -/
def list_imagesRequest (base api_key : String) : HttpRequest :=
  { method := Method.GET
    url := base ++ "/v1/images"
    params := [(("_offset" : String), ParamVal.int 0),
               (("_sort" : String), ParamVal.str ("platform:asc,end_life_at:desc" : String)),
               (("_limit" : String), ParamVal.int 100)]
    headers := headersFor api_key
    body := none }

/-- main.py list_images. -/
def list_images (upstream : HttpRequest → HttpResult) (base api_key : String) : OpResult :=
  syncCall (list_imagesRequest base api_key) upstream

/-- Request built by main.py list_vms. -/
def list_vmsRequest (base api_key : String) : HttpRequest :=
  { method := Method.GET
    url := base ++ "/v1/instances"
    params := [(("_offset" : String), ParamVal.int 0),
               (("_sort" : String), ParamVal.str ("created_at:desc" : String)),
               (("_limit" : String), ParamVal.int 100)]
    headers := headersFor api_key
    body := none }

/-- main.py list_vms. -/
def list_vms (upstream : HttpRequest → HttpResult) (base api_key : String) : OpResult :=
  syncCall (list_vmsRequest base api_key) upstream

/-- Request built by main.py get_vm. -/
def get_vmRequest (base api_key vm_id : String) : HttpRequest :=
  { method := Method.GET
    url := base ++ "/v1/instances/" ++ vm_id
    params := []
    headers := headersFor api_key
    body := none }

/-- main.py get_vm. -/
def get_vm (upstream : HttpRequest → HttpResult) (base api_key vm_id : String) : OpResult :=
  syncCall (get_vmRequest base api_key vm_id) upstream

/-- The request body assembled by main.py create_vm: name, machine_type
and image serialized as name-references, ssh_key_name, and the three
optional parts added only when their argument is truthy. -/
def create_vmPayload (name machine_type_name ssh_key_name image_name : String)
    (availability_zone vpc_id user_data : Option String) : Json :=
  Json.obj
    ([(("name" : String), Json.str name),
      (("machine_type" : String), Json.obj [(("name" : String), Json.str machine_type_name)]),
      (("ssh_key_name" : String), Json.str ssh_key_name),
      (("image" : String), Json.obj [(("name" : String), Json.str image_name)])]
     ++ optField ("availability_zone" : String) availability_zone
     ++ networkField vpc_id
     ++ optField ("user_data" : String) user_data)

/-- Request built by main.py create_vm. -/
def create_vmRequest (base api_key : String)
    (name machine_type_name ssh_key_name image_name : String)
    (availability_zone vpc_id user_data : Option String) : HttpRequest :=
  { method := Method.POST
    url := base ++ "/v1/instances"
    params := []
    headers := headersFor api_key
    body := some (create_vmPayload name machine_type_name ssh_key_name image_name
                    availability_zone vpc_id user_data) }

/-- main.py create_vm. -/
def create_vm (upstream : HttpRequest → HttpResult) (base api_key : String)
    (name machine_type_name ssh_key_name image_name : String)
    (availability_zone vpc_id user_data : Option String) : OpResult :=
  syncCall (create_vmRequest base api_key name machine_type_name ssh_key_name image_name
              availability_zone vpc_id user_data) upstream

/-- Request built by main.py delete_vm. -/
def delete_vmRequest (base api_key vm_id : String) : HttpRequest :=
  { method := Method.DELETE
    url := base ++ "/v1/instances/" ++ vm_id
    params := []
    headers := headersFor api_key
    body := none }

/-- main.py delete_vm: raise_for_status first (so a 4xx/5xx status is
caught and enveloped), then a 204 response returns a fixed message dict
without touching the body, and any other success status is decoded as
JSON.  The except-branch is the same as in syncCall, so a transport
error makes the handler itself raise an unhandled AttributeError from
None.status_code. -/
def delete_vm (upstream : HttpRequest → HttpResult) (base api_key vm_id : String) : OpResult :=
  match upstream (delete_vmRequest base api_key vm_id) with
  | HttpResult.transportError _ => Except.error PyExc.attributeError
  | HttpResult.response r =>
    if 400 ≤ r.status ∧ r.status < 600 then
      Except.ok (errorEnvelope (httpErrorMsg r.status (delete_vmRequest base api_key vm_id).url) r.status)
    else if r.status = 204 then
      Except.ok (Json.obj [(("message" : String), Json.str ("VM deleted successfully" : String))])
    else
      requestsJson r.body

end Main

namespace Server

/-- The fixed server.py base url. -/
def API_BASE : String := "https://api.magalu.cloud/br-ne-1/compute/v1"

/-- server.py header assembly: headers start empty and the tenant
header is added only when x_tenant_id is truthy; no API key header is
ever added in this variant. -/
def tenantHeaders : Option String → List (String × String)
  | none => []
  | some t => if t = "" then [] else [(("x-tenant-id" : String), t)]

/-- Pagination query parameters shared by the server.py listings, with
the Python default arguments modelled as Option plus getD. -/
def pageParams (lim off : Option Int) (sort : Option String) (defSort : String) :
    List (String × ParamVal) :=
  [(("_limit" : String), ParamVal.int (lim.getD 50)),
   (("_offset" : String), ParamVal.int (off.getD 0)),
   (("_sort" : String), ParamVal.str (sort.getD defSort))]

/-- The expand query parameter, added only when the list is truthy
(present and non-empty). -/
def expandParam : Option (List String) → List (String × ParamVal)
  | none => []
  | some l => if l.isEmpty then [] else [(("expand" : String), ParamVal.list l)]

/-- Request built by server.py list_instances; Python defaults are
_limit=50, _offset=0, _sort=created_at:asc. -/
def list_instancesRequest (lim off : Option Int) (sort : Option String)
    (expand : Option (List String)) (x_tenant_id : Option String) : HttpRequest :=
  { method := Method.GET
    url := API_BASE ++ "/instances"
    params := pageParams lim off sort ("created_at:asc" : String) ++ expandParam expand
    headers := tenantHeaders x_tenant_id
    body := none }

/-- server.py list_instances. -/
def list_instances (upstream : HttpRequest → HttpResult) (lim off : Option Int)
    (sort : Option String) (expand : Option (List String)) (x_tenant_id : Option String) : OpResult :=
  asyncCall (list_instancesRequest lim off sort expand x_tenant_id) upstream

/-- Request built by server.py list_images; Python defaults are
_limit=50, _offset=0, _sort=platform:asc,end_life_at:desc. -/
def list_imagesRequest (lim off : Option Int) (sort : Option String) : HttpRequest :=
  { method := Method.GET
    url := API_BASE ++ "/images"
    params := pageParams lim off sort ("platform:asc,end_life_at:desc" : String)
    headers := []
    body := none }

/-- server.py list_images. -/
def list_images (upstream : HttpRequest → HttpResult) (lim off : Option Int)
    (sort : Option String) : OpResult :=
  asyncCall (list_imagesRequest lim off sort) upstream

/-- Request built by server.py list_machine_types; Python defaults are
_limit=50, _offset=0, _sort=created_at:asc. -/
def list_machine_typesRequest (lim off : Option Int) (sort : Option String) : HttpRequest :=
  { method := Method.GET
    url := API_BASE ++ "/machine-types"
    params := pageParams lim off sort ("created_at:asc" : String)
    headers := []
    body := none }

/-- server.py list_machine_types. -/
def list_machine_types (upstream : HttpRequest → HttpResult) (lim off : Option Int)
    (sort : Option String) : OpResult :=
  asyncCall (list_machine_typesRequest lim off sort) upstream

/-- Request built by server.py list_snapshots; Python defaults are
_limit=50, _offset=0, _sort=created_at:asc. -/
def list_snapshotsRequest (lim off : Option Int) (sort : Option String)
    (expand : Option (List String)) (x_tenant_id : Option String) : HttpRequest :=
  { method := Method.GET
    url := API_BASE ++ "/snapshots"
    params := pageParams lim off sort ("created_at:asc" : String) ++ expandParam expand
    headers := tenantHeaders x_tenant_id
    body := none }

/-- server.py list_snapshots. -/
def list_snapshots (upstream : HttpRequest → HttpResult) (lim off : Option Int)
    (sort : Option String) (expand : Option (List String)) (x_tenant_id : Option String) : OpResult :=
  asyncCall (list_snapshotsRequest lim off sort expand x_tenant_id) upstream

/-- Request built by server.py list_backups; Python defaults are
_limit=50, _offset=0, _sort=created_at:asc. -/
def list_backupsRequest (lim off : Option Int) (sort : Option String)
    (expand : Option (List String)) (x_tenant_id : Option String) : HttpRequest :=
  { method := Method.GET
    url := API_BASE ++ "/backups"
    params := pageParams lim off sort ("created_at:asc" : String) ++ expandParam expand
    headers := tenantHeaders x_tenant_id
    body := none }

/-- server.py list_backups. -/
def list_backups (upstream : HttpRequest → HttpResult) (lim off : Option Int)
    (sort : Option String) (expand : Option (List String)) (x_tenant_id : Option String) : OpResult :=
  asyncCall (list_backupsRequest lim off sort expand x_tenant_id) upstream

/-- Request built by server.py create_instance: the caller-supplied body
is passed through unmodified; headers are the content type plus the
optional tenant header. -/
def create_instanceRequest (body : Json) (x_tenant_id : Option String) : HttpRequest :=
  { method := Method.POST
    url := API_BASE ++ "/instances"
    params := []
    headers := (("Content-Type" : String), ("application/json" : String)) :: tenantHeaders x_tenant_id
    body := some body }

/-- server.py create_instance. -/
def create_instance (upstream : HttpRequest → HttpResult) (body : Json)
    (x_tenant_id : Option String) : OpResult :=
  asyncCall (create_instanceRequest body x_tenant_id) upstream

/-- Request built by server.py delete_instance: the delete_public_ip
query parameter is always present, with Python default false. -/
def delete_instanceRequest (id : String) (x_tenant_id : Option String)
    (delete_public_ip : Option Bool) : HttpRequest :=
  { method := Method.DELETE
    url := API_BASE ++ "/instances/" ++ id
    params := [(("delete_public_ip" : String), ParamVal.bool (delete_public_ip.getD false))]
    headers := tenantHeaders x_tenant_id
    body := none }

/-- server.py delete_instance: a 204 response returns the deleted
acknowledgment before raise_for_status and before body decoding. -/
def delete_instance (upstream : HttpRequest → HttpResult) (id : String)
    (x_tenant_id : Option String) (delete_public_ip : Option Bool) : OpResult :=
  asyncCallAck (Json.obj [(("status" : String), Json.str ("deleted" : String))])
    (delete_instanceRequest id x_tenant_id delete_public_ip) upstream

/-- Request built by server.py start_instance. -/
def start_instanceRequest (id : String) (x_tenant_id : Option String) : HttpRequest :=
  { method := Method.POST
    url := API_BASE ++ "/instances/" ++ id ++ "/start"
    params := []
    headers := tenantHeaders x_tenant_id
    body := none }

/-- server.py start_instance. -/
def start_instance (upstream : HttpRequest → HttpResult) (id : String)
    (x_tenant_id : Option String) : OpResult :=
  asyncCallAck (Json.obj [(("status" : String), Json.str ("started" : String))])
    (start_instanceRequest id x_tenant_id) upstream

/-- Request built by server.py stop_instance. -/
def stop_instanceRequest (id : String) (x_tenant_id : Option String) : HttpRequest :=
  { method := Method.POST
    url := API_BASE ++ "/instances/" ++ id ++ "/stop"
    params := []
    headers := tenantHeaders x_tenant_id
    body := none }

/-- server.py stop_instance. -/
def stop_instance (upstream : HttpRequest → HttpResult) (id : String)
    (x_tenant_id : Option String) : OpResult :=
  asyncCallAck (Json.obj [(("status" : String), Json.str ("stopped" : String))])
    (stop_instanceRequest id x_tenant_id) upstream

/-- Request built by server.py reboot_instance. -/
def reboot_instanceRequest (id : String) (x_tenant_id : Option String) : HttpRequest :=
  { method := Method.POST
    url := API_BASE ++ "/instances/" ++ id ++ "/reboot"
    params := []
    headers := tenantHeaders x_tenant_id
    body := none }

/-- server.py reboot_instance. -/
def reboot_instance (upstream : HttpRequest → HttpResult) (id : String)
    (x_tenant_id : Option String) : OpResult :=
  asyncCallAck (Json.obj [(("status" : String), Json.str ("rebooted" : String))])
    (reboot_instanceRequest id x_tenant_id) upstream

/-- Request built by server.py suspend_instance. -/
def suspend_instanceRequest (id : String) (x_tenant_id : Option String) : HttpRequest :=
  { method := Method.POST
    url := API_BASE ++ "/instances/" ++ id ++ "/suspend"
    params := []
    headers := tenantHeaders x_tenant_id
    body := none }

/-- server.py suspend_instance. -/
def suspend_instance (upstream : HttpRequest → HttpResult) (id : String)
    (x_tenant_id : Option String) : OpResult :=
  asyncCallAck (Json.obj [(("status" : String), Json.str ("suspended" : String))])
    (suspend_instanceRequest id x_tenant_id) upstream

end Server

/-- A successful response with a JSON body passes through syncCall. -/
theorem syncCall_success (req : HttpRequest) (u : HttpRequest → HttpResult) (s : Nat) (j : Json)
    (hs : ¬ (400 ≤ s ∧ s < 600)) (h : u req = HttpResult.response ⟨s, some j⟩) :
    syncCall req u = Except.ok j := by
  unfold syncCall
  rw [h]
  simp [requestsJson, hs]

/-- A 4xx/5xx response is caught by the main.py except-branch and
rewritten into the error envelope carrying the upstream status. -/
theorem syncCall_httpError (req : HttpRequest) (u : HttpRequest → HttpResult) (s : Nat)
    (b : Option Json) (hs1 : 400 ≤ s) (hs2 : s < 600)
    (h : u req = HttpResult.response ⟨s, b⟩) :
    syncCall req u = Except.ok (errorEnvelope (httpErrorMsg s req.url) s) := by
  unfold syncCall
  rw [h]
  simp [hs1, hs2]

/-- A transport error makes the main.py except-branch itself raise:
e.response is None, so evaluating None.status_code raises an
AttributeError that escapes the operation unhandled. -/
theorem syncCall_transport (req : HttpRequest) (u : HttpRequest → HttpResult) (msg : String)
    (h : u req = HttpResult.transportError msg) :
    syncCall req u = Except.error PyExc.attributeError := by
  unfold syncCall
  rw [h]

/-- A 2xx response with a JSON body passes through asyncCall. -/
theorem asyncCall_success (req : HttpRequest) (u : HttpRequest → HttpResult) (s : Nat) (j : Json)
    (hs1 : 200 ≤ s) (hs2 : s < 300) (h : u req = HttpResult.response ⟨s, some j⟩) :
    asyncCall req u = Except.ok j := by
  unfold asyncCall
  rw [h]
  simp [requestsJson, hs1, hs2]

/-- A non-2xx response makes asyncCall propagate the raise_for_status
exception unhandled. -/
theorem asyncCall_error (req : HttpRequest) (u : HttpRequest → HttpResult) (s : Nat)
    (b : Option Json) (hs : ¬ (200 ≤ s ∧ s < 300)) (h : u req = HttpResult.response ⟨s, b⟩) :
    asyncCall req u = Except.error (PyExc.httpStatusError s) := by
  unfold asyncCall
  rw [h]
  simp [hs]

/-- A 204 response short-circuits the server.py action pattern to its
acknowledgment dict. -/
theorem asyncCallAck_204 (ack : Json) (req : HttpRequest) (u : HttpRequest → HttpResult)
    (h : u req = HttpResult.response ⟨204, none⟩) :
    asyncCallAck ack req u = Except.ok ack := by
  unfold asyncCallAck
  rw [h]
  simp

/-- A 2xx response other than 204 is decoded as JSON by the server.py
action pattern. -/
theorem asyncCallAck_success (ack : Json) (req : HttpRequest) (u : HttpRequest → HttpResult)
    (s : Nat) (j : Json) (hs1 : 200 ≤ s) (hs2 : s < 300) (hs3 : s ≠ 204)
    (h : u req = HttpResult.response ⟨s, some j⟩) :
    asyncCallAck ack req u = Except.ok j := by
  unfold asyncCallAck
  rw [h]
  simp [requestsJson, hs1, hs2, hs3]

/-- The modelled str(e) of an HTTPError is never empty. -/
theorem httpErrorMsg_ne_empty (s : Nat) (url : String) : httpErrorMsg s url ≠ "" := by
  intro h
  have h2 : (httpErrorMsg s url).length = (("" : String)).length := by rw [h]
  unfold httpErrorMsg at h2
  rw [String.length_append, String.length_append, String.length_append] at h2
  have h3 : (("HTTPError: " : String)).length = 11 := rfl
  have h4 : (("" : String)).length = 0 := rfl
  omega

/-- A successful association-list lookup returns the value of some
entry of the list. -/
theorem alookup_mem {β : Type} {l : List (String × β)} {k : String} {v : β}
    (h : alookup l k = some v) : ∃ k2, (k2, v) ∈ l := by
  induction l with
  | nil => exact absurd h (by simp [alookup])
  | cons p rest ih =>
    rw [alookup] at h
    by_cases hk : p.1 = k
    · rw [if_pos hk] at h
      refine ⟨p.1, ?_⟩
      rw [show v = p.2 from (Option.some.inj h).symm]
      simp
    · rw [if_neg hk] at h
      obtain ⟨k2, hm⟩ := ih h
      exact ⟨k2, List.mem_cons_of_mem _ hm⟩

/-- Entries produced by optField carry string values, never null. -/
theorem optField_no_null (key : String) (o : Option String) (p : String × Json)
    (hm : p ∈ optField key o) : p.2 ≠ Json.null := by
  cases o with
  | none => exact absurd hm (by simp [optField])
  | some s =>
    by_cases hs : s = ""
    · exact absurd hm (by simp [optField, hs])
    · rw [optField] at hm
      rw [if_neg hs] at hm
      rw [List.mem_singleton] at hm
      rw [hm]
      simp

/-- C2: for every listing operation in both variants, a successful
upstream response with a JSON body is returned to the caller unmodified
(pass-through identity). -/
theorem listing_passthrough
    (u : HttpRequest → HttpResult) (base api_key : String) (s : Nat) (j : Json)
    (hs1 : 200 ≤ s) (hs2 : s < 300)
    (h1 : u (Main.list_vmsRequest base api_key) = HttpResult.response ⟨s, some j⟩)
    (h2 : u (Main.list_imagesRequest base api_key) = HttpResult.response ⟨s, some j⟩)
    (h3 : u (Main.list_machine_typesRequest base api_key) = HttpResult.response ⟨s, some j⟩)
    (h4 : u (Server.list_instancesRequest none none none none none) = HttpResult.response ⟨s, some j⟩)
    (h5 : u (Server.list_imagesRequest none none none) = HttpResult.response ⟨s, some j⟩)
    (h6 : u (Server.list_machine_typesRequest none none none) = HttpResult.response ⟨s, some j⟩)
    (h7 : u (Server.list_snapshotsRequest none none none none none) = HttpResult.response ⟨s, some j⟩)
    (h8 : u (Server.list_backupsRequest none none none none none) = HttpResult.response ⟨s, some j⟩) :
    Main.list_vms u base api_key = Except.ok j
    ∧ Main.list_images u base api_key = Except.ok j
    ∧ Main.list_machine_types u base api_key = Except.ok j
    ∧ Server.list_instances u none none none none none = Except.ok j
    ∧ Server.list_images u none none none = Except.ok j
    ∧ Server.list_machine_types u none none none = Except.ok j
    ∧ Server.list_snapshots u none none none none none = Except.ok j
    ∧ Server.list_backups u none none none none none = Except.ok j := by
  refine ⟨?_, ?_, ?_, ?_, ?_, ?_, ?_, ?_⟩
  · exact syncCall_success _ _ _ _ (by omega) h1
  · exact syncCall_success _ _ _ _ (by omega) h2
  · exact syncCall_success _ _ _ _ (by omega) h3
  · exact asyncCall_success _ _ _ _ hs1 hs2 h4
  · exact asyncCall_success _ _ _ _ hs1 hs2 h5
  · exact asyncCall_success _ _ _ _ hs1 hs2 h6
  · exact asyncCall_success _ _ _ _ hs1 hs2 h7
  · exact asyncCall_success _ _ _ _ hs1 hs2 h8

/-- C2 witness: the pass-through theorem applied to a concrete upstream
answering 200 with a null JSON body. -/
theorem listing_passthrough_witness :
    Main.list_vms (fun _ => HttpResult.response ⟨200, some Json.null⟩) ("b") ("k")
      = Except.ok Json.null :=
  (listing_passthrough (fun _ => HttpResult.response ⟨200, some Json.null⟩) ("b") ("k")
    200 Json.null (by decide) (by decide) rfl rfl rfl rfl rfl rfl rfl rfl).1

/-- C1 counterexample: in the asynchronous variant (server.py),
create_instance against an upstream answering 404 does not return the
error envelope: the raise_for_status exception propagates to the
caller unhandled, refuting the claim for "every variant". -/
theorem create_instance_error_propagates :
    Server.create_instance (fun _ => HttpResult.response ⟨404, some (Json.obj [])⟩)
      (Json.obj []) none = Except.error (PyExc.httpStatusError 404) := by
  rfl

/-- C1 (amended): in the synchronous variant (main.py), every operation
rewrites an upstream non-success status into the two-field error
envelope carrying the upstream status and a non-empty message; on a
transport error the except-branch itself evaluates None.status_code
and raises an unhandled AttributeError, so the 500 fallback is dead
code; in the asynchronous variant (server.py) every failure propagates
to the caller as an unhandled exception. -/
theorem sync_ops_error_envelope
    (u ut : HttpRequest → HttpResult) (base api_key vm_id nm mt ssh img : String)
    (az vpc ud : Option String) (s : Nat) (b : Option Json) (body2 : Json) (msg : String)
    (hs1 : 400 ≤ s) (hs2 : s < 600)
    (h1 : u (Main.list_machine_typesRequest base api_key) = HttpResult.response ⟨s, b⟩)
    (h2 : u (Main.list_imagesRequest base api_key) = HttpResult.response ⟨s, b⟩)
    (h3 : u (Main.list_vmsRequest base api_key) = HttpResult.response ⟨s, b⟩)
    (h4 : u (Main.get_vmRequest base api_key vm_id) = HttpResult.response ⟨s, b⟩)
    (h5 : u (Main.create_vmRequest base api_key nm mt ssh img az vpc ud) = HttpResult.response ⟨s, b⟩)
    (h6 : u (Main.delete_vmRequest base api_key vm_id) = HttpResult.response ⟨s, b⟩)
    (t1 : ut (Main.list_machine_typesRequest base api_key) = HttpResult.transportError msg)
    (t2 : ut (Main.list_imagesRequest base api_key) = HttpResult.transportError msg)
    (t3 : ut (Main.list_vmsRequest base api_key) = HttpResult.transportError msg)
    (t4 : ut (Main.get_vmRequest base api_key vm_id) = HttpResult.transportError msg)
    (t5 : ut (Main.create_vmRequest base api_key nm mt ssh img az vpc ud) = HttpResult.transportError msg)
    (t6 : ut (Main.delete_vmRequest base api_key vm_id) = HttpResult.transportError msg)
    (a1 : u (Server.create_instanceRequest body2 none) = HttpResult.response ⟨s, b⟩) :
    (Main.list_machine_types u base api_key
        = Except.ok (errorEnvelope (httpErrorMsg s (Main.list_machine_typesRequest base api_key).url) s)
      ∧ Main.list_images u base api_key
        = Except.ok (errorEnvelope (httpErrorMsg s (Main.list_imagesRequest base api_key).url) s)
      ∧ Main.list_vms u base api_key
        = Except.ok (errorEnvelope (httpErrorMsg s (Main.list_vmsRequest base api_key).url) s)
      ∧ Main.get_vm u base api_key vm_id
        = Except.ok (errorEnvelope (httpErrorMsg s (Main.get_vmRequest base api_key vm_id).url) s)
      ∧ Main.create_vm u base api_key nm mt ssh img az vpc ud
        = Except.ok (errorEnvelope
            (httpErrorMsg s (Main.create_vmRequest base api_key nm mt ssh img az vpc ud).url) s)
      ∧ Main.delete_vm u base api_key vm_id
        = Except.ok (errorEnvelope (httpErrorMsg s (Main.delete_vmRequest base api_key vm_id).url) s))
    ∧ (Main.list_machine_types ut base api_key = Except.error PyExc.attributeError
      ∧ Main.list_images ut base api_key = Except.error PyExc.attributeError
      ∧ Main.list_vms ut base api_key = Except.error PyExc.attributeError
      ∧ Main.get_vm ut base api_key vm_id = Except.error PyExc.attributeError
      ∧ Main.create_vm ut base api_key nm mt ssh img az vpc ud = Except.error PyExc.attributeError
      ∧ Main.delete_vm ut base api_key vm_id = Except.error PyExc.attributeError)
    ∧ (∀ url2, httpErrorMsg s url2 ≠ "")
    ∧ Server.create_instance u body2 none = Except.error (PyExc.httpStatusError s) := by
  refine ⟨⟨?_, ?_, ?_, ?_, ?_, ?_⟩, ⟨?_, ?_, ?_, ?_, ?_, ?_⟩, ?_, ?_⟩
  · exact syncCall_httpError _ _ _ _ hs1 hs2 h1
  · exact syncCall_httpError _ _ _ _ hs1 hs2 h2
  · exact syncCall_httpError _ _ _ _ hs1 hs2 h3
  · exact syncCall_httpError _ _ _ _ hs1 hs2 h4
  · exact syncCall_httpError _ _ _ _ hs1 hs2 h5
  · unfold Main.delete_vm
    rw [h6]
    simp [hs1, hs2]
  · exact syncCall_transport _ _ _ t1
  · exact syncCall_transport _ _ _ t2
  · exact syncCall_transport _ _ _ t3
  · exact syncCall_transport _ _ _ t4
  · exact syncCall_transport _ _ _ t5
  · unfold Main.delete_vm
    rw [t6]
  · intro url2
    exact httpErrorMsg_ne_empty s url2
  · exact asyncCall_error _ _ _ _ (by omega) a1

/-- C1 witness: the amended theorem applied to a concrete upstream
answering 404 and to a concrete transport failure. -/
theorem sync_ops_error_envelope_witness :
    Main.list_machine_types (fun _ => HttpResult.response ⟨404, some Json.null⟩) ("b") ("k")
      = Except.ok (errorEnvelope
          (httpErrorMsg 404 (Main.list_machine_typesRequest ("b") ("k")).url) 404)
    ∧ Main.list_vms (fun _ => HttpResult.transportError ("boom")) ("b") ("k")
      = Except.error PyExc.attributeError :=
  have h := sync_ops_error_envelope
    (fun _ => HttpResult.response ⟨404, some Json.null⟩)
    (fun _ => HttpResult.transportError ("boom"))
    ("b") ("k") ("i") ("n") ("m") ("s") ("g") none none none 404 (some Json.null)
    Json.null ("boom")
    (by decide) (by decide)
    rfl rfl rfl rfl rfl rfl rfl rfl rfl rfl rfl rfl rfl
  ⟨h.1.1, h.2.1.2.2.1⟩

/-- C3 (amended): every outbound request built by the synchronous
variant carries the mandatory x-api-key header holding the configured
API key; the asynchronous variant does not add it. -/
theorem main_requests_carry_api_key
    (base api_key vm_id nm mt ssh img : String) (az vpc ud : Option String) :
    (("x-api-key" : String), api_key) ∈ (Main.list_machine_typesRequest base api_key).headers
    ∧ (("x-api-key" : String), api_key) ∈ (Main.list_imagesRequest base api_key).headers
    ∧ (("x-api-key" : String), api_key) ∈ (Main.list_vmsRequest base api_key).headers
    ∧ (("x-api-key" : String), api_key) ∈ (Main.get_vmRequest base api_key vm_id).headers
    ∧ (("x-api-key" : String), api_key)
        ∈ (Main.create_vmRequest base api_key nm mt ssh img az vpc ud).headers
    ∧ (("x-api-key" : String), api_key) ∈ (Main.delete_vmRequest base api_key vm_id).headers := by
  refine ⟨?_, ?_, ?_, ?_, ?_, ?_⟩ <;>
    simp [Main.list_machine_typesRequest, Main.list_imagesRequest, Main.list_vmsRequest,
          Main.get_vmRequest, Main.create_vmRequest, Main.delete_vmRequest, Main.headersFor]

/-- C3 counterexample: requests built by the asynchronous variant carry
no API key header at all — list_images sends empty headers organically
and create_instance sends only the content type. -/
theorem server_request_lacks_api_key :
    (Server.list_imagesRequest none none none).headers = []
    ∧ alookup (Server.create_instanceRequest Json.null none).headers ("x-api-key") = none := by
  exact ⟨rfl, by decide⟩

/-- Entries produced by networkField carry an object value, never
null. -/
theorem networkField_no_null (o : Option String) (p : String × Json)
    (hm : p ∈ networkField o) : p.2 ≠ Json.null := by
  cases o with
  | none => exact absurd hm (by simp [networkField])
  | some s =>
    by_cases hs : s = ""
    · exact absurd hm (by simp [networkField, hs])
    · rw [networkField] at hm
      rw [if_neg hs] at hm
      rw [List.mem_singleton] at hm
      rw [hm]
      simp

/-- C4 counterexample: create_vm offers only name-style references;
called with the reference values of the specified example, it
serializes the machine type as a name reference, not as the id
reference the claim demands. -/
theorem create_vm_id_style_counterexample :
    (Main.create_vmPayload ("web1") ("mt-1") ("k1") ("img-1") none (some ("vpc-9")) none).lookup
        ("machine_type")
      = some (Json.obj [(("name" : String), Json.str ("mt-1"))])
    ∧ (Main.create_vmPayload ("web1") ("mt-1") ("k1") ("img-1") none (some ("vpc-9")) none).lookup
        ("machine_type")
      ≠ some (Json.obj [(("id" : String), Json.str ("mt-1"))]) := by
  constructor
  · rfl
  · intro h
    rw [show (Main.create_vmPayload ("web1") ("mt-1") ("k1") ("img-1") none (some ("vpc-9"))
          none).lookup ("machine_type")
        = some (Json.obj [(("name" : String), Json.str ("mt-1"))]) from rfl] at h
    simp at h

/-- C4 (amended): create_vm with the reference values of the example
produces the expected body except that machine type and image are
serialized as name references (the only style this variant accepts);
the network object is attached exactly when a non-empty vpc_id is
supplied and then carries the vpc id reference and
associate_public_ip true. -/
theorem create_vm_example_and_network :
    Main.create_vmPayload ("web1") ("mt-1") ("k1") ("img-1") none (some ("vpc-9")) none
      = Json.obj
          [(("name" : String), Json.str ("web1")),
           (("machine_type" : String), Json.obj [(("name" : String), Json.str ("mt-1"))]),
           (("ssh_key_name" : String), Json.str ("k1")),
           (("image" : String), Json.obj [(("name" : String), Json.str ("img-1"))]),
           (("network" : String),
            Json.obj [(("vpc" : String), Json.obj [(("id" : String), Json.str ("vpc-9"))]),
                      (("associate_public_ip" : String), Json.bool true)])]
    ∧ ∀ (nm mt ssh img : String) (az vpc ud : Option String),
        (Main.create_vmPayload nm mt ssh img az vpc ud).lookup ("network")
          = match vpc with
            | none => none
            | some v =>
              if v = "" then none
              else some (Json.obj
                [(("vpc" : String), Json.obj [(("id" : String), Json.str v)]),
                 (("associate_public_ip" : String), Json.bool true)]) := by
  constructor
  · rfl
  · intro nm mt ssh img az vpc ud
    cases az <;> cases vpc <;> cases ud <;>
      simp [Main.create_vmPayload, optField, networkField, Json.lookup, alookup] <;>
      split_ifs <;> simp [alookup]

/-- C5: every create_vm call serializes the machine type and image
references with exactly the single key name (the id-style case is not
constructible in this variant), so exactly one of id/name appears and
never both. -/
theorem create_vm_reference_single_key (nm mt ssh img : String) (az vpc ud : Option String) :
    (Main.create_vmPayload nm mt ssh img az vpc ud).lookup ("machine_type")
      = some (Json.obj [(("name" : String), Json.str mt)])
    ∧ (Main.create_vmPayload nm mt ssh img az vpc ud).lookup ("image")
      = some (Json.obj [(("name" : String), Json.str img)])
    ∧ (Json.obj [(("name" : String), Json.str mt)]).lookup ("id") = none
    ∧ (Json.obj [(("name" : String), Json.str img)]).lookup ("id") = none := by
  refine ⟨?_, ?_, ?_, ?_⟩ <;>
    simp [Main.create_vmPayload, Json.lookup, alookup]

/-- C6: the create_vm body omits availability_zone, network and
user_data entirely when the corresponding argument is not supplied, and
no key of the body ever holds a JSON null. -/
theorem create_vm_omits_unset_optionals :
    (∀ (nm mt ssh img : String),
        (Main.create_vmPayload nm mt ssh img none none none).lookup ("availability_zone") = none
        ∧ (Main.create_vmPayload nm mt ssh img none none none).lookup ("network") = none
        ∧ (Main.create_vmPayload nm mt ssh img none none none).lookup ("user_data") = none)
    ∧ ∀ (nm mt ssh img : String) (az vpc ud : Option String) (k : String) (v : Json),
        (Main.create_vmPayload nm mt ssh img az vpc ud).lookup k = some v → v ≠ Json.null := by
  constructor
  · intro nm mt ssh img
    refine ⟨?_, ?_, ?_⟩ <;>
      simp [Main.create_vmPayload, optField, networkField, Json.lookup, alookup]
  · intro nm mt ssh img az vpc ud k v h hnull
    subst hnull
    simp only [Main.create_vmPayload, Json.lookup] at h
    obtain ⟨k2, hm⟩ := alookup_mem h
    rcases List.mem_append.mp hm with hm1 | hud
    · rcases List.mem_append.mp hm1 with hm2 | hnet
      · rcases List.mem_append.mp hm2 with hbase | haz
        · simp at hbase
        · exact optField_no_null _ _ _ haz rfl
      · exact networkField_no_null _ _ hnet rfl
    · exact optField_no_null _ _ _ hud rfl

/-- C6 witness: a concrete lookup in a concrete body, with the no-null
conclusion discharged through the theorem. -/
theorem create_vm_omits_unset_optionals_witness :
    (Main.create_vmPayload ("a") ("b") ("c") ("d") none none none).lookup ("name")
      = some (Json.str ("a"))
    ∧ Json.str ("a") ≠ Json.null :=
  ⟨rfl, create_vm_omits_unset_optionals.2 ("a") ("b") ("c") ("d") none none none ("name")
      (Json.str ("a")) rfl⟩

/-- C7: both delete operations answer an upstream 204 with their fixed
acknowledgment dict without decoding the empty body, and decode the
body as JSON only for success statuses other than 204. -/
theorem delete_204_acknowledgment
    (u1 u2 u3 u4 : HttpRequest → HttpResult) (base api_key vm_id id2 : String)
    (tenant : Option String) (dpi : Option Bool) (s : Nat) (j : Json)
    (h1 : u1 (Main.delete_vmRequest base api_key vm_id) = HttpResult.response ⟨204, none⟩)
    (h2 : u2 (Server.delete_instanceRequest id2 tenant dpi) = HttpResult.response ⟨204, none⟩)
    (hs1 : 200 ≤ s) (hs2 : s < 300) (hs3 : s ≠ 204)
    (h3 : u3 (Main.delete_vmRequest base api_key vm_id) = HttpResult.response ⟨s, some j⟩)
    (h4 : u4 (Server.delete_instanceRequest id2 tenant dpi) = HttpResult.response ⟨s, some j⟩) :
    Main.delete_vm u1 base api_key vm_id
      = Except.ok (Json.obj [(("message" : String), Json.str ("VM deleted successfully" : String))])
    ∧ Server.delete_instance u2 id2 tenant dpi
      = Except.ok (Json.obj [(("status" : String), Json.str ("deleted" : String))])
    ∧ Main.delete_vm u3 base api_key vm_id = Except.ok j
    ∧ Server.delete_instance u4 id2 tenant dpi = Except.ok j := by
  refine ⟨?_, ?_, ?_, ?_⟩
  · unfold Main.delete_vm
    rw [h1]
    simp
  · exact asyncCallAck_204 _ _ _ h2
  · unfold Main.delete_vm
    rw [h3]
    have hno : ¬ (400 ≤ s ∧ s < 600) := by omega
    simp [hno, hs3, requestsJson]
  · exact asyncCallAck_success _ _ _ _ _ hs1 hs2 hs3 h4

/-- C7 witness: the theorem applied to a concrete 204 upstream and a
concrete 200 upstream. -/
theorem delete_204_acknowledgment_witness :
    Main.delete_vm (fun _ => HttpResult.response ⟨204, none⟩) ("b") ("k") ("i")
      = Except.ok (Json.obj [(("message" : String), Json.str ("VM deleted successfully" : String))])
    ∧ Server.delete_instance (fun _ => HttpResult.response ⟨204, none⟩) ("i") none none
      = Except.ok (Json.obj [(("status" : String), Json.str ("deleted" : String))]) :=
  have h := delete_204_acknowledgment
    (fun _ => HttpResult.response ⟨204, none⟩) (fun _ => HttpResult.response ⟨204, none⟩)
    (fun _ => HttpResult.response ⟨200, some Json.null⟩)
    (fun _ => HttpResult.response ⟨200, some Json.null⟩)
    ("b") ("k") ("i") ("i") none none 200 Json.null
    rfl rfl (by decide) (by decide) (by decide) rfl rfl
  ⟨h.1, h.2.1⟩

/-- C8: without explicit pagination or sort arguments, list_images
defaults to the platform/end-of-life sort with offset 0 and the fixed
per-variant limit (100 in main.py, 50 in server.py), while machine
types, snapshots and backups default their sort to created_at:asc. -/
theorem listing_default_params (base api_key : String) :
    (Main.list_imagesRequest base api_key).params
      = [(("_offset" : String), ParamVal.int 0),
         (("_sort" : String), ParamVal.str ("platform:asc,end_life_at:desc" : String)),
         (("_limit" : String), ParamVal.int 100)]
    ∧ (Server.list_imagesRequest none none none).params
      = [(("_limit" : String), ParamVal.int 50),
         (("_offset" : String), ParamVal.int 0),
         (("_sort" : String), ParamVal.str ("platform:asc,end_life_at:desc" : String))]
    ∧ (Main.list_machine_typesRequest base api_key).params
      = [(("_offset" : String), ParamVal.int 0),
         (("_sort" : String), ParamVal.str ("created_at:asc" : String)),
         (("_limit" : String), ParamVal.int 100)]
    ∧ (Server.list_machine_typesRequest none none none).params
      = [(("_limit" : String), ParamVal.int 50),
         (("_offset" : String), ParamVal.int 0),
         (("_sort" : String), ParamVal.str ("created_at:asc" : String))]
    ∧ (Server.list_snapshotsRequest none none none none none).params
      = [(("_limit" : String), ParamVal.int 50),
         (("_offset" : String), ParamVal.int 0),
         (("_sort" : String), ParamVal.str ("created_at:asc" : String))]
    ∧ (Server.list_backupsRequest none none none none none).params
      = [(("_limit" : String), ParamVal.int 50),
         (("_offset" : String), ParamVal.int 0),
         (("_sort" : String), ParamVal.str ("created_at:asc" : String))] := by
  exact ⟨rfl, rfl, rfl, rfl, rfl, rfl⟩

/-- C9: in the synchronous create_vm, an optional argument supplied as
the empty string is treated exactly like an absent one, because the
omission tests use Python truthiness. -/
theorem create_vm_empty_string_as_absent (nm mt ssh img : String) :
    Main.create_vmPayload nm mt ssh img (some ("")) (some ("")) (some (""))
      = Main.create_vmPayload nm mt ssh img none none none
    ∧ (Main.create_vmPayload nm mt ssh img (some ("")) (some ("")) (some (""))).lookup
        ("availability_zone") = none
    ∧ (Main.create_vmPayload nm mt ssh img (some ("")) (some ("")) (some (""))).lookup
        ("network") = none
    ∧ (Main.create_vmPayload nm mt ssh img (some ("")) (some ("")) (some (""))).lookup
        ("user_data") = none := by
  refine ⟨?_, ?_, ?_, ?_⟩ <;>
    simp [Main.create_vmPayload, optField, networkField, Json.lookup, alookup]

/-- C10: delete_instance always sends the delete_public_ip query
parameter, and its value defaults to false when the caller does not
supply it. -/
theorem delete_instance_public_ip_param (id2 : String) (tenant : Option String) (b : Bool) :
    (Server.delete_instanceRequest id2 tenant none).params
      = [(("delete_public_ip" : String), ParamVal.bool false)]
    ∧ (Server.delete_instanceRequest id2 tenant (some b)).params
      = [(("delete_public_ip" : String), ParamVal.bool b)] := by
  exact ⟨rfl, rfl⟩
